import Mathlib

/-!
Verification of `src/accounts/acnt-mgmt.py` (Heroku account management CLI).

The Python source is shallowly embedded below: the pure classification
policy becomes pure Lean functions over an `Account` structure; the
HTTP layer is abstracted as an oracle giving, for each request, either a
success body or an HTTP error code; the process-wide token global
becomes explicit state passed through `login`; Python exceptions become
`Except` / `Option` results.
-/

namespace AcntMgmt

/-- Python `s.endswith(suffix)`: exact character-suffix test. Embedded
over the character list of the string so that it evaluates by kernel
reduction (all constants involved are ASCII). -/
def strEndsWith (s suffix : String) : Bool :=
  List.isSuffixOf suffix.data s.data

/-- Python `s.startswith(pre)`: exact character-prefix test, embedded
over the character list of the string. -/
def strStartsWith (s pre : String) : Bool :=
  List.isPrefixOf pre.data s.data

/-- Embeds the Python enum `Account_Type` (acnt-mgmt.py lines 141-150). -/
inductive Account_Type where
  | UNSET
  | STAFF
  | SERVICE
  | COMMUNITY
  | UNKNOWN
deriving DecidableEq, Repr

/-- Embeds the Python enum `Account_Status` (acnt-mgmt.py lines 153-161). -/
inductive Account_Status where
  | UNSET
  | OKAY
  | BAD
  | UNKNOWN
deriving DecidableEq, Repr

/-- Embeds the tuple `Staff_Email_Domains` (acnt-mgmt.py lines 165-174). -/
def Staff_Email_Domains : List String :=
  [ "@mozilla.com"
  , "@mozillafoundation.org"
  , "@getpocket.com"
  , "@readitlater.com"
  , "@mozilla-japan.org"
  , "@mozilla.ai"
  , "@mozilla.vc"
  , "@thunderbird.net" ]

/-- Embeds the dataclass `Account` (acnt-mgmt.py lines 177-201) with its
field defaults. The nullable `role` string is embedded as a plain string. -/
structure Account where
  email : String := ""
  federated : Bool := false
  role : String := ""
  two_factor_authentication : Bool := false
  account_type : Account_Type := Account_Type.UNSET
  account_status : Account_Status := Account_Status.UNSET
  needs_action : Bool := true
deriving DecidableEq, Repr

/-- Embeds the type-determination block of `Account.classify`
(acnt-mgmt.py lines 222-233): `self.email.endswith(Staff_Email_Domains)`
tests the email against every domain in the tuple, and the local part is
tested for the `heroku-` service marker with `startswith`. -/
def classify_type_of (email : String) : Account_Type :=
  if Staff_Email_Domains.any (fun d => strEndsWith email d) then
    if strStartsWith email "heroku-" then Account_Type.SERVICE
    else Account_Type.STAFF
  else
    if strStartsWith email "heroku-" then Account_Type.UNKNOWN
    else Account_Type.COMMUNITY

/-- Embeds the status-determination chain of `Account.classify`
(acnt-mgmt.py lines 235-250). `t` is the account type that the previous
block has just assigned; `s0` is the value `self.account_status` still
holds when the chain runs (none of the earlier `elif` arms mutated it). -/
def classify_status_of (t : Account_Type) (federated two_factor : Bool)
    (s0 : Account_Status) : Account_Status :=
  if federated = true ∧ t = Account_Type.STAFF then Account_Status.OKAY
  else if two_factor = true ∧ t = Account_Type.COMMUNITY then Account_Status.OKAY
  else if t = Account_Type.SERVICE ∧ ¬(federated = true ∧ two_factor = true) then
    Account_Status.OKAY
  else if s0 = Account_Status.UNKNOWN then Account_Status.UNKNOWN
  else Account_Status.BAD

/-- Embeds the needs-action block of `Account.classify`
(acnt-mgmt.py lines 252-259), computed from the just-assigned type and
status. -/
def classify_needs_action (t : Account_Type) (s : Account_Status) : Bool :=
  if (t ≠ Account_Type.UNKNOWN ∧ t ≠ Account_Type.UNSET) ∧ s = Account_Status.OKAY then
    false
  else
    true

/-- Embeds `Account.classify` (acnt-mgmt.py lines 215-262). The two
`assert` statements at entry (type and status must still be UNSET) and
the two at exit (they must no longer be UNSET) become `none` results:
`classify a = none` models an `AssertionError`, `classify a = some r`
models normal completion leaving the mutated record `r`. -/
def classify (a : Account) : Option Account :=
  if a.account_type = Account_Type.UNSET then
    if a.account_status = Account_Status.UNSET then
      let t := classify_type_of a.email
      let s := classify_status_of t a.federated a.two_factor_authentication
        a.account_status
      let na := classify_needs_action t s
      let r : Account :=
        { a with account_type := t, account_status := s, needs_action := na }
      if r.account_type ≠ Account_Type.UNSET then
        if r.account_status ≠ Account_Status.UNSET then some r
        else none
      else none
    else none
  else none

/-- Embeds `Account.as_text` (acnt-mgmt.py lines 264-279): the one-line
human-readable rendering. Python booleans print as `True` / `False`. -/
def pyBoolStr (b : Bool) : String :=
  if b then "True" else "False"

/-- Embeds `Account_Type.name` of the Python enum members. -/
def Account_Type.name : Account_Type → String
  | Account_Type.UNSET => "UNSET"
  | Account_Type.STAFF => "STAFF"
  | Account_Type.SERVICE => "SERVICE"
  | Account_Type.COMMUNITY => "COMMUNITY"
  | Account_Type.UNKNOWN => "UNKNOWN"

/-- Embeds `Account_Status.name` of the Python enum members. -/
def Account_Status.name : Account_Status → String
  | Account_Status.UNSET => "UNSET"
  | Account_Status.OKAY => "OKAY"
  | Account_Status.BAD => "BAD"
  | Account_Status.UNKNOWN => "UNKNOWN"

/-- Embeds `Account.as_text` (acnt-mgmt.py lines 264-279). -/
def as_text (a : Account) : String :=
  let action :=
    if a.needs_action then
      "BAD! type=" ++ a.account_type.name ++ "; status=" ++ a.account_status.name
        ++ "; SSO=" ++ pyBoolStr a.federated ++ "; 2FA="
        ++ pyBoolStr a.two_factor_authentication
    else "okay"
  action ++ ": " ++ a.email ++ " is a " ++ a.account_type.name
    ++ " account with " ++ a.role ++ " permissions."

/-- Outcome of one HTTP request as seen by the script: either a decoded
response body, or an `HTTPError` carrying its status code. -/
inductive HttpResult where
  | success (body : String)
  | httpError (code : Nat)
deriving DecidableEq, Repr

/-- Embeds `do_revoke` (acnt-mgmt.py lines 105-134). `resp` is the
outcome of the DELETE request issued against the member resource. The
parsed JSON payload of a success is kept abstract as the body string.
A 404 error is absorbed into the "not a member" string; any other
HTTP error re-raises, modelled as `Except.error code`. -/
def do_revoke (addr team : String) (resp : HttpResult) : Except Nat String :=
  match resp with
  | HttpResult.success body => Except.ok body
  | HttpResult.httpError code =>
      if code = 404 then
        Except.ok (addr ++ " is not a member of " ++ team ++ " (" ++ toString code ++ ")")
      else
        Except.error code

/-- The network/list environment one run sees: the cached member email
list (what `member_emails` returns for the team), and for each address
the outcome the DELETE request would have. -/
structure Env where
  memberEmails : List String
  deleteResp : String → HttpResult

/-- Embeds `is_member` (acnt-mgmt.py lines 283-290): the fixed
`@example.com` testing carve-out, then membership in the cached email
list. -/
def is_member (email : String) (memberEmails : List String) : Bool :=
  if strEndsWith email "@example.com" then true
  else memberEmails.contains email

/-- Embeds `revoke` (acnt-mgmt.py lines 293-298): non-members get a FAIL
string without any API call; members go through `do_revoke`. -/
def revoke (email team : String) (env : Env) : Except Nat String :=
  if ¬(is_member email env.memberEmails = true) then
    Except.ok ("FAIL: " ++ email ++ " is not a member of " ++ team)
  else
    do_revoke email team (env.deleteResp email)

/-- Embeds `membership_verify` (acnt-mgmt.py lines 331-339): one status
line per supplied address, in order. -/
def membership_verify (emails : List String) (team : String)
    (memberEmails : List String) : List String :=
  match emails with
  | [] => []
  | addr :: rest =>
      (if is_member addr memberEmails then addr ++ " is a member of " ++ team
       else addr ++ " is NOT a member of " ++ team)
        :: membership_verify rest team memberEmails

/-- The loop body of `membership_revoke` (acnt-mgmt.py lines 344-352)
for one address: the status line appended for `addr`, together with the
addresses for which a DELETE API request was issued while handling it
(`revoke` reaches `do_revoke` exactly when `addr` is a member). The
`try/except` around a member's revoke becomes the match on the `Except`
result: an error is absorbed into the per-address failure message. -/
def revoke_entry (addr team : String) (env : Env) : String × List String :=
  if is_member addr env.memberEmails then
    match revoke addr team env with
    | Except.ok s => (s, [addr])
    | Except.error _ =>
        (addr ++ " failed membership revocation from " ++ team, [addr])
  else
    (addr ++ " was NOT a member of " ++ team, [])

/-- Embeds `membership_revoke` (acnt-mgmt.py lines 342-354). The first
component is the `status` list built by the loop, one entry per supplied
address in order; the second accumulates the DELETE API requests
issued. -/
def membership_revoke (emails : List String) (team : String) (env : Env) :
    List String × List String :=
  match emails with
  | [] => ([], [])
  | addr :: rest =>
      let e := revoke_entry addr team env
      let tail := membership_revoke rest team env
      (e.1 :: tail.1, e.2 ++ tail.2)

/-- Embeds `member_list` (acnt-mgmt.py lines 302-308): keep the accounts
that need action, or everyone when the `--all` flag is set. `everyone`
stands for the classified accounts `all_members` returned. -/
def member_list (everyone : List Account) (allFlag : Bool) : List Account :=
  match everyone with
  | [] => []
  | acnt :: rest =>
      if acnt.needs_action || allFlag then acnt :: member_list rest allFlag
      else member_list rest allFlag

/-- Embeds `login` (acnt-mgmt.py lines 32-59). `st` is the process-wide
global `Heroku_Token` (initially `none`); `opRead` models the external
`op read` secret tool, `none` meaning its invocation fails. The result
is `none` on `SystemExit`, otherwise `some` of the new global together
with the number of times the `op` tool was invoked during the call.
Note the source's `if Heroku_Token:` branch only executes `pass` and
falls through, so `st` never short-circuits the body. -/
def login (st : Option String) (token : String)
    (opRead : String → Option String) : Option (Option String × Nat) :=
  let _ := st
  if strStartsWith token "op://" then
    match opRead token with
    | some fetched => some (some fetched, 1)
    | none => none
  else
    some (some token, 0)

/-- The value a dispatched handler hands back to `main`: a list of
classified accounts (the `list` command) or a list of strings (the
other commands). -/
inductive CmdResult where
  | accounts (l : List Account)
  | strings (l : List String)

/-- Embeds the output step of `main` (acnt-mgmt.py lines 427-437):
`isinstance(result[0], Account)` indexes the first element of the
handler's result before rendering, so an empty result gives no output
value (`none` models the `IndexError`). -/
def main_output (result : CmdResult) : Option String :=
  match result with
  | CmdResult.accounts l =>
      match l.head? with
      | none => none
      | some _ => some (String.intercalate "\n" (l.map as_text))
  | CmdResult.strings l =>
      match l.head? with
      | none => none
      | some _ => some (String.intercalate "\n" l)

/-! ## Spec-side reference definitions

These follow the wording of the spec (section 4.3, steps 1-2), to be
compared with the embedding of the code above. -/

/-- Spec step 1 wording: if the email ends with one of the fixed
organizational domains then SERVICE when it starts with the service
prefix `heroku-` and STAFF otherwise; on a non-organizational domain,
UNKNOWN when it starts with the prefix and COMMUNITY otherwise. -/
def spec_account_type (email : String) : Account_Type :=
  if Staff_Email_Domains.any (fun d => strEndsWith email d) then
    if strStartsWith email "heroku-" then Account_Type.SERVICE
    else Account_Type.STAFF
  else
    if strStartsWith email "heroku-" then Account_Type.UNKNOWN
    else Account_Type.COMMUNITY

/-- Spec step 2 wording, first matching rule wins: STAFF and federated
gives OKAY; COMMUNITY and two-factor gives OKAY; SERVICE with not both
federated and two-factor gives OKAY; otherwise BAD. -/
def spec_account_status (t : Account_Type) (federated two_factor : Bool) :
    Account_Status :=
  if t = Account_Type.STAFF ∧ federated = true then Account_Status.OKAY
  else if t = Account_Type.COMMUNITY ∧ two_factor = true then Account_Status.OKAY
  else if t = Account_Type.SERVICE ∧ ¬(federated = true ∧ two_factor = true) then
    Account_Status.OKAY
  else Account_Status.BAD

/-! ## Helper lemmas about the classifier -/

theorem classify_type_of_ne_unset (email : String) :
    classify_type_of email ≠ Account_Type.UNSET := by
  unfold classify_type_of
  split_ifs <;> decide

theorem classify_status_of_ne_unset (t : Account_Type) (fed tfa : Bool)
    (s0 : Account_Status) : classify_status_of t fed tfa s0 ≠ Account_Status.UNSET := by
  unfold classify_status_of
  split_ifs <;> decide

/-- Inversion: a successful `classify` call starts from an UNSET record
and produces exactly the record assembled from the three blocks. -/
theorem classify_inv (a a' : Account) (h : classify a = some a') :
    a.account_type = Account_Type.UNSET ∧ a.account_status = Account_Status.UNSET ∧
    a' = { a with
      account_type := classify_type_of a.email,
      account_status := classify_status_of (classify_type_of a.email) a.federated
        a.two_factor_authentication a.account_status,
      needs_action := classify_needs_action (classify_type_of a.email)
        (classify_status_of (classify_type_of a.email) a.federated
          a.two_factor_authentication a.account_status) } := by
  simp only [classify] at h
  split_ifs at h with h1 h2 h3 h4
  · exact ⟨h1, h2, (Option.some.inj h).symm⟩

/-- The success form of `classify` on an UNSET record. -/
theorem classify_eq_some (a : Account)
    (h1 : a.account_type = Account_Type.UNSET)
    (h2 : a.account_status = Account_Status.UNSET) :
    classify a = some { a with
      account_type := classify_type_of a.email,
      account_status := classify_status_of (classify_type_of a.email) a.federated
        a.two_factor_authentication a.account_status,
      needs_action := classify_needs_action (classify_type_of a.email)
        (classify_status_of (classify_type_of a.email) a.federated
          a.two_factor_authentication a.account_status) } := by
  simp only [classify, h1, h2, if_true]
  rw [if_pos (classify_type_of_ne_unset a.email),
    if_pos (classify_status_of_ne_unset _ _ _ _)]

/-- On an UNSET incoming status (the only value the entry assertion
lets through), the code's status chain agrees with the spec's ordered
rules, and SERVICE with both flags set lands in BAD. -/
theorem classify_status_of_unset_spec (t : Account_Type) (fed tfa : Bool) :
    classify_status_of t fed tfa Account_Status.UNSET = spec_account_status t fed tfa ∧
    (t = Account_Type.SERVICE ∧ fed = true ∧ tfa = true →
      classify_status_of t fed tfa Account_Status.UNSET = Account_Status.BAD) := by
  cases t <;> cases fed <;> cases tfa <;> decide

/-- The needs-action block as a function of the just-computed type and
status. -/
theorem classify_needs_action_char (t : Account_Type) (s : Account_Status) :
    (classify_needs_action t s = false ↔
      t ≠ Account_Type.UNKNOWN ∧ t ≠ Account_Type.UNSET ∧ s = Account_Status.OKAY) ∧
    (t = Account_Type.UNKNOWN → classify_needs_action t s = true) := by
  cases t <;> cases s <;> decide

/-! ## Concrete records used as witnesses -/

def acctStaff : Account :=
  { email := "a@mozilla.com", federated := true, role := "admin" }

def acctStaffDone : Account :=
  { email := "a@mozilla.com", federated := true, role := "admin",
    account_type := Account_Type.STAFF, account_status := Account_Status.OKAY,
    needs_action := false }

def acctService : Account :=
  { email := "heroku-ci@mozilla.com", federated := true,
    two_factor_authentication := true }

def acctServiceDone : Account :=
  { email := "heroku-ci@mozilla.com", federated := true,
    two_factor_authentication := true,
    account_type := Account_Type.SERVICE, account_status := Account_Status.BAD,
    needs_action := true }

def acctCommunity : Account :=
  { email := "user@gmail.com", two_factor_authentication := true }

def acctCommunityDone : Account :=
  { email := "user@gmail.com", two_factor_authentication := true,
    account_type := Account_Type.COMMUNITY, account_status := Account_Status.OKAY,
    needs_action := false }

def acctUnknown : Account :=
  { email := "heroku-x@gmail.com" }

def acctUnknownDone : Account :=
  { email := "heroku-x@gmail.com",
    account_type := Account_Type.UNKNOWN, account_status := Account_Status.BAD,
    needs_action := true }

/-! ## Claim theorems -/

/-- C1: for every Account record, a completed `classify` call assigns
the account type exactly as the spec's step 1 prescribes: organizational
domain gives SERVICE under the `heroku-` service prefix and STAFF
otherwise; a non-organizational domain gives UNKNOWN under the prefix
and COMMUNITY otherwise. -/
theorem classify_assigns_spec_type (a a' : Account) (h : classify a = some a') :
    a'.account_type = spec_account_type a.email := by
  obtain ⟨h1, h2, rfl⟩ := classify_inv a a' h
  rfl

theorem classify_assigns_spec_type_witness :
    classify acctStaff = some acctStaffDone ∧
    acctStaffDone.account_type = spec_account_type acctStaff.email :=
  ⟨by decide, classify_assigns_spec_type acctStaff acctStaffDone (by decide)⟩

/-- C2: a completed `classify` call assigns the status by the spec's
ordered rules with first match winning (STAFF and federated OKAY;
COMMUNITY and two-factor OKAY; SERVICE without both flags OKAY;
everything else BAD); in particular SERVICE with both federated and
two-factor true is BAD. -/
theorem classify_assigns_spec_status (a a' : Account) (h : classify a = some a') :
    a'.account_status =
      spec_account_status a'.account_type a'.federated a'.two_factor_authentication ∧
    (a'.account_type = Account_Type.SERVICE ∧ a'.federated = true ∧
        a'.two_factor_authentication = true →
      a'.account_status = Account_Status.BAD) := by
  obtain ⟨h1, h2, rfl⟩ := classify_inv a a' h
  have hmain := classify_status_of_unset_spec (classify_type_of a.email) a.federated
    a.two_factor_authentication
  simpa [h2] using hmain

theorem classify_assigns_spec_status_witness :
    classify acctService = some acctServiceDone ∧
    acctServiceDone.account_status = spec_account_status acctServiceDone.account_type
      acctServiceDone.federated acctServiceDone.two_factor_authentication ∧
    (acctServiceDone.account_type = Account_Type.SERVICE ∧
        acctServiceDone.federated = true ∧
        acctServiceDone.two_factor_authentication = true →
      acctServiceDone.account_status = Account_Status.BAD) :=
  ⟨by decide, classify_assigns_spec_status acctService acctServiceDone (by decide)⟩

/-- C3: after a completed `classify` call, needs-action is false exactly
when the type is neither UNKNOWN nor UNSET and the status is OKAY; and a
record of type UNKNOWN always needs action. -/
theorem classify_needs_action_iff (a a' : Account) (h : classify a = some a') :
    (a'.needs_action = false ↔
      a'.account_type ≠ Account_Type.UNKNOWN ∧ a'.account_type ≠ Account_Type.UNSET ∧
        a'.account_status = Account_Status.OKAY) ∧
    (a'.account_type = Account_Type.UNKNOWN → a'.needs_action = true) := by
  obtain ⟨h1, h2, rfl⟩ := classify_inv a a' h
  have hmain := classify_needs_action_char (classify_type_of a.email)
    (classify_status_of (classify_type_of a.email) a.federated
      a.two_factor_authentication a.account_status)
  simpa using hmain

theorem classify_needs_action_iff_witness :
    classify acctCommunity = some acctCommunityDone ∧
    ((acctCommunityDone.needs_action = false ↔
      acctCommunityDone.account_type ≠ Account_Type.UNKNOWN ∧
        acctCommunityDone.account_type ≠ Account_Type.UNSET ∧
        acctCommunityDone.account_status = Account_Status.OKAY) ∧
    (acctCommunityDone.account_type = Account_Type.UNKNOWN →
      acctCommunityDone.needs_action = true)) :=
  ⟨by decide, classify_needs_action_iff acctCommunity acctCommunityDone (by decide)⟩

/-- C8: a completed `classify` call always leaves both the type and the
status different from UNSET, so a second `classify` call on the same
record trips the entry assertion (modelled as `none`) instead of
silently re-running. -/
theorem classify_twice_fails (a a' : Account) (h : classify a = some a') :
    a'.account_type ≠ Account_Type.UNSET ∧ a'.account_status ≠ Account_Status.UNSET ∧
    classify a' = none := by
  obtain ⟨h1, h2, rfl⟩ := classify_inv a a' h
  refine ⟨?_, ?_, ?_⟩
  · simpa using classify_type_of_ne_unset a.email
  · simpa using classify_status_of_ne_unset _ _ _ _
  · simp [classify, classify_type_of_ne_unset a.email]

theorem classify_twice_fails_witness :
    classify acctUnknown = some acctUnknownDone ∧
    (acctUnknownDone.account_type ≠ Account_Type.UNSET ∧
      acctUnknownDone.account_status ≠ Account_Status.UNSET ∧
      classify acctUnknownDone = none) :=
  ⟨by decide, classify_twice_fails acctUnknown acctUnknownDone (by decide)⟩

/-! ## Batch helper lemmas -/

/-- Every address in the DELETE-call trace of a batch revoke passed the
membership test. -/
theorem membership_revoke_calls_members (emails : List String) (team : String)
    (env : Env) (x : String) (hx : x ∈ (membership_revoke emails team env).2) :
    is_member x env.memberEmails = true := by
  induction emails with
  | nil => simp [membership_revoke] at hx
  | cons addr rest ih =>
    simp only [membership_revoke, List.mem_append] at hx
    rcases hx with hx | hx
    · unfold revoke_entry at hx
      split_ifs at hx with hm
      · rcases hrev : revoke addr team env with s | c <;>
          simp [hrev] at hx <;> simpa [hx] using hm
      · simp at hx
    · exact ih hx

/-! ## Remaining claim theorems -/

/-- C4: `do_revoke` converts an HTTP 404 into the human-readable
"not a member" string carrying the code, while any other HTTP error
code propagates as an uncaught error. -/
theorem do_revoke_absorbs_404 (addr team : String) (code : Nat) (h : code ≠ 404) :
    do_revoke addr team (HttpResult.httpError 404) =
      Except.ok (addr ++ " is not a member of " ++ team ++ " (" ++ toString (404 : Nat) ++ ")") ∧
    do_revoke addr team (HttpResult.httpError code) = Except.error code := by
  constructor
  · rfl
  · simp [do_revoke, h]

theorem do_revoke_absorbs_404_witness :
    ((500 : Nat) ≠ 404) ∧
    (do_revoke "x@y.test" "teamT" (HttpResult.httpError 404) =
      Except.ok ("x@y.test" ++ " is not a member of " ++ "teamT" ++ " ("
        ++ toString (404 : Nat) ++ ")") ∧
     do_revoke "x@y.test" "teamT" (HttpResult.httpError 500) = Except.error 500) :=
  ⟨by decide, do_revoke_absorbs_404 "x@y.test" "teamT" 500 (by decide)⟩

/-- C5: a batch revoke yields exactly one status entry per supplied
address, in input order, and an address whose revoke raises gets a
failure message naming it while the rest of the batch still runs
(the result keeps its full length regardless of errors). -/
theorem membership_revoke_one_entry_per_email (emails : List String) (team : String)
    (env : Env) :
    (membership_revoke emails team env).1.length = emails.length ∧
    ∀ i (hi : i < emails.length) (c : Nat),
      is_member emails[i] env.memberEmails = true →
      revoke emails[i] team env = Except.error c →
      ((membership_revoke emails team env).1)[i]? =
        some (emails[i] ++ " failed membership revocation from " ++ team) := by
  induction emails with
  | nil =>
    refine ⟨rfl, ?_⟩
    intro i hi
    exact absurd hi (by simp)
  | cons addr rest ih =>
    refine ⟨by simp [membership_revoke, ih.1], ?_⟩
    intro i hi c hmem hrev
    cases i with
    | zero =>
      simp only [List.getElem_cons_zero] at hmem hrev
      simp only [membership_revoke, List.getElem?_cons_zero, List.getElem_cons_zero,
        Option.some.injEq]
      unfold revoke_entry
      rw [if_pos hmem, hrev]
    | succ n =>
      have hn : n < rest.length := by simpa using hi
      simp only [List.getElem_cons_succ] at hmem hrev ⊢
      simpa only [membership_revoke, List.getElem?_cons_succ]
        using ih.2 n hn c hmem hrev

theorem membership_revoke_one_entry_per_email_witness :
    (is_member "ghost@example.com" ([] : List String) = true ∧
     revoke "ghost@example.com" "teamT"
       { memberEmails := [], deleteResp := fun _ => HttpResult.httpError 500 } =
         Except.error 500) ∧
    ((membership_revoke ["ghost@example.com"] "teamT"
       { memberEmails := [], deleteResp := fun _ => HttpResult.httpError 500 }).1)[0]? =
      some ("ghost@example.com" ++ " failed membership revocation from " ++ "teamT") :=
  ⟨⟨by decide, by rfl⟩,
   (membership_revoke_one_entry_per_email ["ghost@example.com"] "teamT"
     { memberEmails := [], deleteResp := fun _ => HttpResult.httpError 500 }).2
     0 (by decide) 500 (by decide) (by rfl)⟩

/-- C6: an address that is neither in the cached member list nor in the
`@example.com` carve-out gets a non-membership status line at each of
its positions in the batch, and never appears in the DELETE-call
trace. -/
theorem membership_revoke_skips_nonmembers (emails : List String) (team : String)
    (env : Env) (addr : String)
    (h1 : strEndsWith addr "@example.com" = false)
    (h2 : env.memberEmails.contains addr = false) :
    (∀ i (hi : i < emails.length), emails[i] = addr →
      ((membership_revoke emails team env).1)[i]? =
        some (addr ++ " was NOT a member of " ++ team)) ∧
    addr ∉ (membership_revoke emails team env).2 := by
  have h2' : addr ∉ env.memberEmails := by simpa using h2
  have hm : is_member addr env.memberEmails = false := by
    simp [is_member, h1, h2']
  constructor
  · induction emails with
    | nil =>
      intro i hi
      exact absurd hi (by simp)
    | cons a rest ih =>
      intro i hi he
      cases i with
      | zero =>
        simp only [List.getElem_cons_zero] at he
        subst he
        simp only [membership_revoke, List.getElem?_cons_zero, Option.some.injEq]
        unfold revoke_entry
        rw [if_neg (by simp [hm])]
      | succ n =>
        have hn : n < rest.length := by simpa using hi
        simp only [List.getElem_cons_succ] at he
        simpa only [membership_revoke, List.getElem?_cons_succ] using ih n hn he
  · intro hx
    have := membership_revoke_calls_members emails team env addr hx
    rw [hm] at this
    exact Bool.false_ne_true this

theorem membership_revoke_skips_nonmembers_witness :
    (strEndsWith "ghost@nowhere.test" "@example.com" = false ∧
     List.contains ["someone@mozilla.com"] "ghost@nowhere.test" = false) ∧
    (((membership_revoke ["ghost@nowhere.test"] "teamT"
        { memberEmails := ["someone@mozilla.com"],
          deleteResp := fun _ => HttpResult.success "{}" }).1)[0]? =
      some ("ghost@nowhere.test" ++ " was NOT a member of " ++ "teamT") ∧
     "ghost@nowhere.test" ∉ (membership_revoke ["ghost@nowhere.test"] "teamT"
        { memberEmails := ["someone@mozilla.com"],
          deleteResp := fun _ => HttpResult.success "{}" }).2) :=
  ⟨⟨by decide, by decide⟩,
   ⟨(membership_revoke_skips_nonmembers ["ghost@nowhere.test"] "teamT"
       { memberEmails := ["someone@mozilla.com"],
         deleteResp := fun _ => HttpResult.success "{}" }
       "ghost@nowhere.test" (by decide) (by decide)).1 0 (by decide) (by decide),
    (membership_revoke_skips_nonmembers ["ghost@nowhere.test"] "teamT"
       { memberEmails := ["someone@mozilla.com"],
         deleteResp := fun _ => HttpResult.success "{}" }
       "ghost@nowhere.test" (by decide) (by decide)).2⟩⟩

/-- C7: an address in the fixed `@example.com` test domain is treated
as a member by `is_member` regardless of the list contents, and
`membership_verify` therefore reports it as a member at each of its
positions. -/
theorem example_domain_always_member (email team : String)
    (memberEmails emails : List String)
    (h : strEndsWith email "@example.com" = true) :
    is_member email memberEmails = true ∧
    ∀ i (hi : i < emails.length), emails[i] = email →
      (membership_verify emails team memberEmails)[i]? =
        some (email ++ " is a member of " ++ team) := by
  have hm : is_member email memberEmails = true := by simp [is_member, h]
  refine ⟨hm, ?_⟩
  induction emails with
  | nil =>
    intro i hi
    exact absurd hi (by simp)
  | cons a rest ih =>
    intro i hi he
    cases i with
    | zero =>
      simp only [List.getElem_cons_zero] at he
      subst he
      simp only [membership_verify, List.getElem?_cons_zero, Option.some.injEq]
      rw [if_pos hm]
    | succ n =>
      have hn : n < rest.length := by simpa using hi
      simp only [List.getElem_cons_succ] at he
      simpa only [membership_verify, List.getElem?_cons_succ] using ih n hn he

theorem example_domain_always_member_witness :
    (strEndsWith "ghost@example.com" "@example.com" = true) ∧
    (is_member "ghost@example.com" ["other@mozilla.com"] = true ∧
     (membership_verify ["ghost@example.com"] "teamT" ["other@mozilla.com"])[0]? =
       some ("ghost@example.com" ++ " is a member of " ++ "teamT")) :=
  ⟨by decide,
   ⟨(example_domain_always_member "ghost@example.com" "teamT" ["other@mozilla.com"]
       ["ghost@example.com"] (by decide)).1,
    (example_domain_always_member "ghost@example.com" "teamT" ["other@mozilla.com"]
       ["ghost@example.com"] (by decide)).2 0 (by decide) (by decide)⟩⟩

/-- C9 exhibit: with a token already stored in the process-wide state,
a further `login` call with a secret-reference token invokes the `op`
tool again (fetch count 1, not 0) and overwrites the stored token. The
source's `if Heroku_Token:` guard only executes `pass` and falls
through, contradicting its own `# already done` comment and the stated
fetch-at-most-once intent. -/
theorem login_refetches_despite_stored_token :
    login (some "token-one") "op://vault/item" (fun _ => some "token-two") =
      some (some "token-two", 1) ∧
    (some "token-two" : Option String) ≠ some "token-one" := by
  constructor
  · rfl
  · decide

/-- C10: when every classified account is compliant and the `--all`
flag is off, `member_list` hands `main` an empty result list, and the
output step — which indexes `result[0]` — yields no value on it: the
success branch of `main` is unreachable for empty results. -/
theorem main_output_stuck_on_empty (everyone : List Account)
    (h : ∀ a ∈ everyone, a.needs_action = false) :
    member_list everyone false = [] ∧
    main_output (CmdResult.accounts (member_list everyone false)) = none := by
  have he : member_list everyone false = [] := by
    induction everyone with
    | nil => rfl
    | cons a rest ih =>
      have ha := h a (List.mem_cons_self a rest)
      have hr := ih fun x hx => h x (List.mem_cons_of_mem a hx)
      simp [member_list, ha, hr]
  exact ⟨he, by rw [he]; rfl⟩

theorem main_output_stuck_on_empty_witness :
    (∀ a ∈ (classify acctStaff).toList, a.needs_action = false) ∧
    (member_list (classify acctStaff).toList false = [] ∧
     main_output (CmdResult.accounts
       (member_list (classify acctStaff).toList false)) = none) :=
  ⟨by decide, main_output_stuck_on_empty (classify acctStaff).toList (by decide)⟩

end AcntMgmt
